import Mathlib

/-!
Verification development for `src/ble/src/u_ble_data_extmod.c` (ubxlib BLE
data API).  The C module correlates connection events arriving from two
asynchronous transports, keeps a linked list of per-channel state
(`uBleDataSpsChannel_t`), buffers inbound data in a per-channel ring buffer
and forwards events through a bounded event queue.

The embedding below follows the C source function by function.  Machine
integers are modelled as `Int` (no arithmetic near overflow occurs in the
modelled code paths), pointers to instances as `Nat` identities, NULL-able
pointers as `Option`, and the singly linked channel list as `List`.
External collaborator calls (AT client, EDM stream, port layer) are passed
in as explicit result parameters.
-/

set_option autoImplicit false

/-- Error codes used by the module.  They come from `u_error_common.h`,
which is not part of the extracted sources.  Modelled from the spec:
`SUCCESS` is zero and every error is a distinct negative value (the code
relies on `gBleDataEventQueue < 0` meaning "no queue"). -/
def U_ERROR_COMMON_SUCCESS : Int := 0

/-- Error value returned before initialisation; also the sentinel stored in
`gBleDataEventQueue` when no event queue exists.  Modelled from the spec
(`u_error_common.h` is outside the extracted sources): a negative value. -/
def U_ERROR_COMMON_NOT_INITIALISED : Int := -2

/-- InvalidParameter-class error code.  Modelled from the spec
(`u_error_common.h` is outside the extracted sources): a negative value
distinct from the others. -/
def U_ERROR_COMMON_INVALID_PARAMETER : Int := -5

/-- Connection-event type for "connected".  The source comment at
`btEdmConnectionCallback` states "Type 0 == connected". -/
def U_SHORT_RANGE_EVENT_CONNECTED : Int := 0

/-- Connection-event type for "disconnected".  Modelled from the spec: the
enum lives in `u_short_range.h`, outside the extracted sources; any value
distinct from `U_SHORT_RANGE_EVENT_CONNECTED` works. -/
def U_SHORT_RANGE_EVENT_DISCONNECTED : Int := 1

/-- Compile-time configuration of the module: `U_BLE_DATA_MAX_CONNECTIONS`,
`U_BLE_DATA_BUFFER_SIZE` and `U_BLE_DATA_DEFAULT_SEND_TIMEOUT_MS` are
macros from `u_ble_data.h`, which is outside the extracted sources, so the
embedding is parametric in them. -/
structure Config where
  maxConnections : Nat
  bufferSize : Nat
  defaultSendTimeoutMs : Nat
deriving Repr, DecidableEq

/-- Receive ring buffer (`ringBuffer_t` plus its backing store): a
fixed-capacity FIFO holding the buffered bytes in arrival order.
Modelled from the spec: the ring-buffer primitives themselves live outside
the extracted sources; `capacity` is the usable byte capacity. -/
structure RingBuffer where
  capacity : Nat
  data : List Nat
deriving Repr, DecidableEq

/-- `ringBufferCreate`: a fresh, empty buffer over a backing store of
`capacity` bytes. -/
def ringBufferCreate (capacity : Nat) : RingBuffer :=
  ⟨capacity, []⟩

/-- `ringBufferDataSize`: number of bytes currently buffered. -/
def ringBufferDataSize (rb : RingBuffer) : Nat :=
  rb.data.length

/-- `ringBufferAdd`: all-or-nothing append.  Modelled from the spec and
from the caller's documented drop policy: the ring-buffer implementation is
outside the extracted sources, and the only caller in this module,
`dataCallback`, comments "If the buffer can't fit the data we will just
drop it for now" and logs the whole block length as dropped when the add
returns false — so a block that does not fit entirely is not added at all.
Returns whether the add succeeded together with the new buffer. -/
def ringBufferAdd (rb : RingBuffer) (bytes : List Nat) : Bool × RingBuffer :=
  if rb.data.length + bytes.length ≤ rb.capacity then
    (true, ⟨rb.capacity, rb.data ++ bytes⟩)
  else
    (false, rb)

/-- `ringBufferRead`: remove and return up to `maxLen` bytes in FIFO
order.  Modelled from the spec: returns fewer bytes when less is buffered
and an empty result on an empty buffer. -/
def ringBufferRead (rb : RingBuffer) (maxLen : Nat) : List Nat × RingBuffer :=
  (rb.data.take maxLen, ⟨rb.capacity, rb.data.drop maxLen⟩)

/-- One node of the SPS channel linked list (`uBleDataSpsChannel_t`):
channel id, owning instance (pointer identity), receive ring buffer and
send timeout.  The `pNext` link is the tail of the enclosing `List`. -/
structure SpsChannel where
  channel : Int
  pInstance : Nat
  rxRingBuffer : RingBuffer
  txTimeout : Nat
deriving Repr, DecidableEq

/-- Channel node as initialised by `createSpsChannel` on a successful
allocation: fresh ring buffer over `U_BLE_DATA_BUFFER_SIZE` bytes and the
default send timeout. -/
def newSpsChannel (cfg : Config) (pInstance : Nat) (channel : Int) : SpsChannel :=
  ⟨channel, pInstance, ringBufferCreate cfg.bufferSize, cfg.defaultSendTimeoutMs⟩

/-- `createSpsChannel`: embedding of the C list append.  With an empty list
the node is allocated unconditionally; with a non-empty list the code walks
to the tail counting nodes (`nbrOfChannels` equals the list length) and
only allocates a new tail node when that count is below
`U_BLE_DATA_MAX_CONNECTIONS` — the count is over the whole global list, not
per instance.  `malloc` is assumed to succeed (its failure path only
logs). -/
def createSpsChannel (cfg : Config) (pInstance : Nat) (channel : Int)
    (listHead : List SpsChannel) : List SpsChannel :=
  match listHead with
  | [] => [newSpsChannel cfg pInstance channel]
  | _ :: _ =>
    if listHead.length < cfg.maxConnections then
      listHead ++ [newSpsChannel cfg pInstance channel]
    else
      listHead

/-- `getSpsChannel`: first node whose instance pointer and channel id both
match, `none` for the C NULL result. -/
def getSpsChannel (pInstance : Nat) (channel : Int) :
    List SpsChannel → Option SpsChannel
  | [] => none
  | c :: rest =>
    if c.pInstance = pInstance ∧ c.channel = channel then some c
    else getSpsChannel pInstance channel rest

/-- Unlink of the first matching node from the tail of the list, used by
`deleteSpsChannel` for a match that is not the head (`pPrevChannel`
non-NULL): `pPrevChannel->pNext = pChannel->pNext`. -/
def unlinkFirstSpsChannel (pInstance : Nat) (channel : Int) :
    List SpsChannel → List SpsChannel
  | [] => []
  | c :: rest =>
    if c.pInstance = pInstance ∧ c.channel = channel then rest
    else c :: unlinkFirstSpsChannel pInstance channel rest

/-- `deleteSpsChannel`: embedding of the C removal.  The C walk finds the
first matching node; when a previous node exists it is unlinked, but when
the match is the list head the code executes `*ppListHead = NULL` (under
the comment "This happens when the list only has one item"), which empties
the whole list even when further nodes follow the head. -/
def deleteSpsChannel (pInstance : Nat) (channel : Int)
    (listHead : List SpsChannel) : List SpsChannel :=
  match listHead with
  | [] => []
  | c :: rest =>
    if c.pInstance = pInstance ∧ c.channel = channel then []
    else c :: unlinkFirstSpsChannel pInstance channel rest

/-- Pending/completed connection record (`uBleDataSpsConnection_t`).  A
freshly `malloc`ed record has every field uninitialised; each source
callback writes only its own fields, so an unwritten field is `none`.
`hasCallback` stands for the `pCallback` function pointer copied from the
instance (`some true` = non-NULL pointer copied, `none` = never written). -/
structure SpsConnection where
  pInstance : Option Nat
  connHandle : Option Int
  type : Option Int
  address : Option String
  dataChannel : Option Int
  mtu : Option Int
  hasCallback : Option Bool
deriving Repr, DecidableEq

/-- The fields of `uShortRangePrivateInstance_t` that this module reads or
writes (the full structure lives in `u_short_range_private.h`, outside the
extracted sources): the instance's pointer identity, whether `atHandle` is
non-NULL, the registered callbacks (as presence flags) and the pending
correlation slot `pPendingSpsConnectionEvent`. -/
structure InstanceState where
  pInstance : Nat
  atHandleValid : Bool
  hasSpsConnectionCallback : Bool
  pPendingSpsConnectionEvent : Option SpsConnection
  hasBtDataCallback : Bool
  hasBtDataAvailableCallback : Bool
deriving Repr, DecidableEq

/-- `btEdmConnectionCallback`: transport-side (EDM) partial connection
event carrying {type, channel, mtu, address}.  Guarded by
`pInstance != NULL && pInstance->atHandle != NULL`.  When no pending record
exists, a record is allocated, filled with the transport-side fields (and
the callback pointer captured from the instance) and stored as pending;
when a pending record exists, the same fields are written into it and it is
handed to `uAtClientCallback(spsEventCallback, ...)` — the returned list
holds the records scheduled for dispatch by this call.  `malloc` is assumed
to succeed (its failure path only drops the event). -/
def btEdmConnectionCallback (type channel mtu : Int) (address : String)
    (inst : InstanceState) : InstanceState × List SpsConnection :=
  if inst.atHandleValid then
    match inst.pPendingSpsConnectionEvent with
    | none =>
      let pStatus : SpsConnection :=
        { pInstance := some inst.pInstance, connHandle := none,
          type := some type, address := some address,
          dataChannel := some channel, mtu := some mtu,
          hasCallback := some inst.hasSpsConnectionCallback }
      ({ inst with pPendingSpsConnectionEvent := some pStatus }, [])
    | some p =>
      let pStatus : SpsConnection :=
        { p with
          pInstance := some inst.pInstance,
          type := some type, address := some address,
          dataChannel := some channel, mtu := some mtu,
          hasCallback := some inst.hasSpsConnectionCallback }
      ({ inst with pPendingSpsConnectionEvent := some pStatus }, [pStatus])
  else
    (inst, [])

/-- `atConnectionEvent`: command-side (AT/URC) partial connection event
carrying only the connection handle.  Guarded by
`pInstance->pSpsConnectionCallback != NULL`.  When no pending record
exists, a record is allocated, only `connHandle` is written and it is
stored as pending; when a pending record exists, `connHandle` is written
into it and it is handed to `uAtClientCallback(spsEventCallback, ...)`.
`malloc` is assumed to succeed. -/
def atConnectionEvent (connHandle : Int)
    (inst : InstanceState) : InstanceState × List SpsConnection :=
  if inst.hasSpsConnectionCallback then
    match inst.pPendingSpsConnectionEvent with
    | none =>
      let pStatus : SpsConnection :=
        { pInstance := none, connHandle := some connHandle, type := none,
          address := none, dataChannel := none, mtu := none,
          hasCallback := none }
      ({ inst with pPendingSpsConnectionEvent := some pStatus }, [])
    | some p =>
      let pStatus : SpsConnection := { p with connHandle := some connHandle }
      ({ inst with pPendingSpsConnectionEvent := some pStatus }, [pStatus])
  else
    (inst, [])

/-- Observable outcome of one `spsEventCallback` run: the registry contents
at the moment the user connection callback is invoked (`none` when the
callback is not invoked) and the registry contents after the run. -/
structure SpsEventRun where
  callbackRegistry : Option (List SpsChannel)
  finalRegistry : List SpsChannel
deriving Repr, DecidableEq

/-- `spsEventCallback`: the dispatched consumer of a completed connection
record.  When the record carries a callback it creates the SPS channel
before invoking the callback for a CONNECTED event and deletes it after the
callback returns for a DISCONNECTED event (source comment: "We have to
create the SPS channel info before calling the callback ... we have to
delete it after calling the callback").  The record fields it reads
(`pInstance`, `dataChannel`) are taken as `some` values; a record whose
fields were never written would make the C read uninitialised memory, which
the embedding leaves as the registry untouched. -/
def spsEventCallback (cfg : Config) (pStatus : SpsConnection)
    (gpChannelList : List SpsChannel) : SpsEventRun :=
  if pStatus.hasCallback = some true then
    match pStatus.pInstance, pStatus.dataChannel with
    | some i, some ch =>
      let s1 :=
        if pStatus.type = some U_SHORT_RANGE_EVENT_CONNECTED then
          createSpsChannel cfg i ch gpChannelList
        else gpChannelList
      let s2 :=
        if pStatus.type = some U_SHORT_RANGE_EVENT_DISCONNECTED then
          deleteSpsChannel i ch s1
        else s1
      ⟨some s1, s2⟩
    | _, _ => ⟨some gpChannelList, gpChannelList⟩
  else
    ⟨none, gpChannelList⟩

/-- Event record sent on the BLE data event queue (`bleDataEvent_t`). -/
structure bleDataEvent where
  channel : Int
  pInstance : Nat
deriving Repr, DecidableEq

/-- Observable outcome of one `dataCallback` run: the updated channel list,
the records sent to `gBleDataEventQueue` by this run, and whether the
legacy raw data callback (`pBtDataCallback`) consumed the block instead. -/
structure DataCallbackRun where
  channelList : List SpsChannel
  queuedEvents : List bleDataEvent
  rawCallbackInvoked : Bool
deriving Repr, DecidableEq

/-- Replacement of the ring buffer of the first node matching
(instance, channel): the C code mutates the node found by `getSpsChannel`
in place through the returned pointer. -/
def updateFirstSpsChannel (pInstance : Nat) (channel : Int) (rb : RingBuffer) :
    List SpsChannel → List SpsChannel
  | [] => []
  | c :: rest =>
    if c.pInstance = pInstance ∧ c.channel = channel then
      { c with rxRingBuffer := rb } :: rest
    else
      c :: updateFirstSpsChannel pInstance channel rb rest

/-- `dataCallback`: per-channel inbound data from the EDM stream.  With a
legacy raw callback registered the block is handed over directly; otherwise
with a data-available callback registered the channel is looked up, the
emptiness of its ring buffer is sampled *before* the add, the block is
added (dropped whole on failure, only logged), and an event is sent to
`gBleDataEventQueue` exactly when the sampled size was zero. -/
def dataCallback (inst : InstanceState) (channel : Int) (pData : List Nat)
    (gpChannelList : List SpsChannel) : DataCallbackRun :=
  if inst.hasBtDataCallback then
    ⟨gpChannelList, [], true⟩
  else if inst.hasBtDataAvailableCallback then
    match getSpsChannel inst.pInstance channel gpChannelList with
    | none => ⟨gpChannelList, [], false⟩
    | some pChannel =>
      let bufferWasEmtpy := ringBufferDataSize pChannel.rxRingBuffer = 0
      let added := ringBufferAdd pChannel.rxRingBuffer pData
      let newList := updateFirstSpsChannel inst.pInstance channel added.2 gpChannelList
      let events : List bleDataEvent :=
        if bufferWasEmtpy then [⟨channel, inst.pInstance⟩] else []
      ⟨newList, events, false⟩
  else
    ⟨gpChannelList, [], false⟩

/-- `uBleDataSend`: looks up the SPS channel for (instance, channel) and
calls `uShortRangeEdmStreamWrite(..., pChannel->txTimeout)` on the result
*without a NULL check*.  The embedding returns `some status` when the C
function returns a status code and `none` when it dereferences the NULL
lookup result (undefined behaviour — the sibling functions
`uBleDataReceive` and `uBleDataSetSendTimeout` both guard this lookup).
`lockOk` is the `uShortRangeLock()` outcome, `instanceValid` whether
`pUShortRangePrivateGetInstance` returned non-NULL, and `writeResult` the
external `uShortRangeEdmStreamWrite` outcome as a function of the timeout
read from the channel. -/
def uBleDataSend (lockOk instanceValid : Bool) (pInstance : Nat)
    (channel : Int) (writeResult : Nat → Int)
    (gpChannelList : List SpsChannel) : Option Int :=
  if lockOk then
    if instanceValid then
      match getSpsChannel pInstance channel gpChannelList with
      | none => none
      | some pChannel => some (writeResult pChannel.txTimeout)
    else some U_ERROR_COMMON_INVALID_PARAMETER
  else some U_ERROR_COMMON_NOT_INITIALISED

/-- Observable outcome of `uBleDataSetCallbackConnectionStatus`: the
returned error code and whether a connection-status callback is registered
afterwards (`pSpsConnectionCallback` non-NULL). -/
structure ConnStatusRun where
  errorCode : Int
  hasSpsConnectionCallback : Bool
deriving Repr, DecidableEq

/-- `uBleDataSetCallbackConnectionStatus`: enable/disable of the
connection-status callback.  `pCallbackNonNull` is whether the passed
callback is non-NULL and `hasCb` whether one is currently registered.  On
enable the code registers two URC handlers, the short-range connection
status callback and the EDM event callback in sequence, stopping at the
first failure (`urcAclcResult`, `urcAcldResult`, `connStatusResult`,
`edmEventResult` are the external outcomes); any failure triggers clean-up,
which deregisters everything and resets the callback to NULL.  On disable
the code returns success and cleans up.  Any other combination leaves the
preset `U_ERROR_COMMON_INVALID_PARAMETER` and touches nothing. -/
def uBleDataSetCallbackConnectionStatus (lockOk instanceValid : Bool)
    (pCallbackNonNull hasCb : Bool)
    (urcAclcResult urcAcldResult connStatusResult edmEventResult : Int) :
    ConnStatusRun :=
  if lockOk then
    if instanceValid then
      if pCallbackNonNull ∧ ¬hasCb then
        let e1 := urcAclcResult
        let e2 := if e1 = U_ERROR_COMMON_SUCCESS then urcAcldResult else e1
        let e3 := if e2 = U_ERROR_COMMON_SUCCESS then connStatusResult else e2
        let e4 := if e3 = U_ERROR_COMMON_SUCCESS then edmEventResult else e3
        if e4 ≠ U_ERROR_COMMON_SUCCESS then ⟨e4, false⟩ else ⟨e4, true⟩
      else if ¬pCallbackNonNull ∧ hasCb then
        ⟨U_ERROR_COMMON_SUCCESS, false⟩
      else
        ⟨U_ERROR_COMMON_INVALID_PARAMETER, hasCb⟩
    else ⟨U_ERROR_COMMON_INVALID_PARAMETER, hasCb⟩
  else ⟨U_ERROR_COMMON_NOT_INITIALISED, hasCb⟩

/-- Observable outcome of `uBleDataSetDataAvailableCallback`: the returned
error code, whether a data-available callback is registered afterwards, and
the resulting `gBleDataEventQueue` handle. -/
structure DataAvailRun where
  errorCode : Int
  hasBtDataAvailableCallback : Bool
  gBleDataEventQueue : Int
deriving Repr, DecidableEq

/-- `uBleDataSetDataAvailableCallback`: enable/disable of the
data-available callback.  On enable the callback is registered on the
instance first; then, if `gBleDataEventQueue` is the NOT_INITIALISED
sentinel, `uPortEventQueueOpen` is attempted (`queueOpenResult`), and a
negative result is written back as the sentinel; in every case the returned
error code is solely the outcome of
`uShortRangeEdmStreamDataEventCallbackSet` (`edmSetResult`) — the queue
open outcome never reaches the error code.  On disable the callback is
cleared, the EDM hook deregistered and the queue closed. -/
def uBleDataSetDataAvailableCallback (lockOk instanceValid : Bool)
    (pCallbackNonNull hasAvailCb : Bool)
    (gBleDataEventQueue : Int) (queueOpenResult edmSetResult : Int) :
    DataAvailRun :=
  if lockOk then
    if instanceValid then
      if ¬hasAvailCb ∧ pCallbackNonNull then
        let q :=
          if gBleDataEventQueue = U_ERROR_COMMON_NOT_INITIALISED then
            if queueOpenResult < 0 then U_ERROR_COMMON_NOT_INITIALISED
            else queueOpenResult
          else gBleDataEventQueue
        ⟨edmSetResult, true, q⟩
      else if hasAvailCb ∧ ¬pCallbackNonNull then
        ⟨edmSetResult, false, U_ERROR_COMMON_NOT_INITIALISED⟩
      else
        ⟨U_ERROR_COMMON_INVALID_PARAMETER, hasAvailCb, gBleDataEventQueue⟩
    else ⟨U_ERROR_COMMON_INVALID_PARAMETER, hasAvailCb, gBleDataEventQueue⟩
  else ⟨U_ERROR_COMMON_NOT_INITIALISED, hasAvailCb, gBleDataEventQueue⟩

/-! Helper lemmas about the channel registry operations. -/

/-- A list with no node matching (instance, channel) yields a NULL lookup. -/
theorem getSpsChannel_eq_none_of_countP_eq_zero (i : Nat) (ch : Int)
    (l : List SpsChannel)
    (h : l.countP (fun c => decide (c.pInstance = i ∧ c.channel = ch)) = 0) :
    getSpsChannel i ch l = none := by
  induction l with
  | nil => rfl
  | cons c rest ih =>
    rw [List.countP_cons] at h
    by_cases hc : c.pInstance = i ∧ c.channel = ch
    · simp [hc] at h
    · rw [decide_eq_false hc, if_neg (by simp)] at h
      simp only [getSpsChannel, hc, if_false]
      exact ih (by omega)

/-- Unlinking the first matching node from a list holding at most one match
leaves no match behind. -/
theorem getSpsChannel_unlinkFirstSpsChannel_eq_none (i : Nat) (ch : Int)
    (l : List SpsChannel)
    (h : l.countP (fun c => decide (c.pInstance = i ∧ c.channel = ch)) ≤ 1) :
    getSpsChannel i ch (unlinkFirstSpsChannel i ch l) = none := by
  induction l with
  | nil => rfl
  | cons c rest ih =>
    rw [List.countP_cons] at h
    by_cases hc : c.pInstance = i ∧ c.channel = ch
    · simp only [unlinkFirstSpsChannel, hc, if_true]
      refine getSpsChannel_eq_none_of_countP_eq_zero i ch rest ?_
      rw [decide_eq_true hc, if_pos (by simp)] at h
      omega
    · simp only [unlinkFirstSpsChannel, hc, if_false]
      simp only [getSpsChannel, hc, if_false]
      rw [decide_eq_false hc, if_neg (by simp)] at h
      exact ih (by omega)

/-- After `deleteSpsChannel` on a list holding at most one match for the
key, the lookup for that key fails. -/
theorem getSpsChannel_deleteSpsChannel_eq_none (i : Nat) (ch : Int)
    (l : List SpsChannel)
    (h : l.countP (fun c => decide (c.pInstance = i ∧ c.channel = ch)) ≤ 1) :
    getSpsChannel i ch (deleteSpsChannel i ch l) = none := by
  cases l with
  | nil => rfl
  | cons c rest =>
    rw [List.countP_cons] at h
    by_cases hc : c.pInstance = i ∧ c.channel = ch
    · simp only [deleteSpsChannel, hc, if_true]
      rfl
    · simp only [deleteSpsChannel, hc, if_false]
      simp only [getSpsChannel, hc, if_false]
      rw [decide_eq_false hc, if_neg (by simp)] at h
      exact getSpsChannel_unlinkFirstSpsChannel_eq_none i ch rest (by omega)

/-- Appending a freshly initialised node for the key makes the lookup for
that key succeed. -/
theorem getSpsChannel_append_newSpsChannel_isSome (cfg : Config) (i : Nat)
    (ch : Int) (l : List SpsChannel) :
    (getSpsChannel i ch (l ++ [newSpsChannel cfg i ch])).isSome = true := by
  induction l with
  | nil => simp [getSpsChannel, newSpsChannel]
  | cons c rest ih =>
    by_cases hc : c.pInstance = i ∧ c.channel = ch
    · simp [getSpsChannel, hc]
    · simpa [getSpsChannel, hc] using ih

/-- When the global list is below the configured maximum,
`createSpsChannel` makes the lookup for the key succeed. -/
theorem getSpsChannel_createSpsChannel_isSome (cfg : Config) (i : Nat)
    (ch : Int) (l : List SpsChannel) (h : l.length < cfg.maxConnections) :
    (getSpsChannel i ch (createSpsChannel cfg i ch l)).isSome = true := by
  cases l with
  | nil => simp [createSpsChannel, getSpsChannel, newSpsChannel]
  | cons c rest =>
    rw [show createSpsChannel cfg i ch (c :: rest) =
        (c :: rest) ++ [newSpsChannel cfg i ch] by
      simp only [createSpsChannel, if_pos h]]
    exact getSpsChannel_append_newSpsChannel_isSome cfg i ch (c :: rest)

/-- Replacing the buffer of the first matching node commutes with the
lookup of that key. -/
theorem getSpsChannel_updateFirstSpsChannel (i : Nat) (ch : Int)
    (rb : RingBuffer) (l : List SpsChannel) :
    getSpsChannel i ch (updateFirstSpsChannel i ch rb l) =
      (getSpsChannel i ch l).map (fun c => { c with rxRingBuffer := rb }) := by
  induction l with
  | nil => rfl
  | cons c rest ih =>
    by_cases hc : c.pInstance = i ∧ c.channel = ch
    · simp [updateFirstSpsChannel, getSpsChannel, hc]
    · simpa [updateFirstSpsChannel, getSpsChannel, hc] using ih

/-! Claim theorems. -/

/-- Claim C2 (code bug): with a valid instance but a channel id absent from
the registry, `uBleDataSend` does not return an InvalidParameter status: it
dereferences the NULL result of `getSpsChannel` (`pChannel->txTimeout`),
modelled as the `none` outcome. -/
theorem uBleDataSend_unknown_channel_null_deref :
    getSpsChannel 0 3 ([] : List SpsChannel) = none ∧
    uBleDataSend true true 0 3 (fun _ => U_ERROR_COMMON_SUCCESS) [] = none := by
  exact ⟨rfl, rfl⟩

/-- Claim C7 (code bug): deleting the channel (instance 0, id 1), which is
the head of a two-element registry, empties the whole registry, so the
untouched channel (instance 0, id 2) — found before the delete — is no
longer found afterwards. -/
theorem deleteSpsChannel_head_match_drops_rest :
    getSpsChannel 0 2
      [SpsChannel.mk 1 0 (RingBuffer.mk 8 []) 100,
       SpsChannel.mk 2 0 (RingBuffer.mk 8 []) 100] =
      some (SpsChannel.mk 2 0 (RingBuffer.mk 8 []) 100) ∧
    deleteSpsChannel 0 1
      [SpsChannel.mk 1 0 (RingBuffer.mk 8 []) 100,
       SpsChannel.mk 2 0 (RingBuffer.mk 8 []) 100] = [] ∧
    getSpsChannel 0 2 (deleteSpsChannel 0 1
      [SpsChannel.mk 1 0 (RingBuffer.mk 8 []) 100,
       SpsChannel.mk 2 0 (RingBuffer.mk 8 []) 100]) = none := by
  refine ⟨rfl, rfl, rfl⟩
/-- Claim C1: starting from an instance with an empty pending slot, a live
AT handle and a registered connection callback, a command-side partial
(`atConnectionEvent`, connection handle only) and a transport-side partial
(`btEdmConnectionCallback`, kind/channel/mtu/address) arriving serialized
in either order schedule no event at the first arrival and exactly one
completed event at the second, whose connection handle comes from the
command side and whose kind, channel id, mtu and address come from the
transport side. -/
theorem atConnectionEvent_btEdm_exactly_once_merged
    (inst : InstanceState) (h t c m : Int) (a : String)
    (hPending : inst.pPendingSpsConnectionEvent = none)
    (hCb : inst.hasSpsConnectionCallback = true)
    (hAt : inst.atHandleValid = true) :
    (atConnectionEvent h inst).2 = [] ∧
    (btEdmConnectionCallback t c m a (atConnectionEvent h inst).1).2 =
      [SpsConnection.mk (some inst.pInstance) (some h) (some t) (some a)
        (some c) (some m) (some true)] ∧
    (btEdmConnectionCallback t c m a inst).2 = [] ∧
    (atConnectionEvent h (btEdmConnectionCallback t c m a inst).1).2 =
      [SpsConnection.mk (some inst.pInstance) (some h) (some t) (some a)
        (some c) (some m) (some true)] := by
  simp [atConnectionEvent, btEdmConnectionCallback, hPending, hCb, hAt]

/-- Claim C3 counterexample: with the configured maximum 1 and a registry
already full (one channel of instance 0), `spsEventCallback` consuming a
completed Connected event for (instance 7, channel 3) still invokes the
user callback, but `createSpsChannel` has silently failed, so
`find(instance 7, channel 3)` fails in the registry state the callback
sees — refuting "find succeeds before the user callback executes" as a
property of every completed Connected event. -/
theorem spsEventCallback_full_registry_find_fails_before_callback :
    ([SpsChannel.mk 5 0 (RingBuffer.mk 8 []) 100] : List SpsChannel).length =
      (Config.mk 1 8 100).maxConnections ∧
    (spsEventCallback (Config.mk 1 8 100)
        (SpsConnection.mk (some 7) (some 9) (some U_SHORT_RANGE_EVENT_CONNECTED)
          (some "AA:BB") (some 3) (some 240) (some true))
        [SpsChannel.mk 5 0 (RingBuffer.mk 8 []) 100]).callbackRegistry.map
      (fun s => getSpsChannel 7 3 s) = some none := by
  exact ⟨rfl, rfl⟩

/-- Claim C3 amended: when `spsEventCallback` consumes a completed event
carrying a callback, the channel is created inside the dispatched consumer
— after the `uAtClientCallback` handoff but before the user callback is
invoked — so for a Connected event, provided the registry holds fewer
channels than the configured maximum, the channel lookup succeeds in the
registry state seen by the user callback (with a full registry the creation
silently fails and the lookup fails before the callback); for a
Disconnected event, the channel — present and unique per the uniqueness
invariant — is removed only after the callback, so the lookup succeeds in
the state seen by the callback and fails in the state left after the
run. -/
theorem spsEventCallback_create_before_delete_after
    (cfg : Config) (pStatus : SpsConnection) (l : List SpsChannel)
    (i : Nat) (ch : Int)
    (hCb : pStatus.hasCallback = some true)
    (hInst : pStatus.pInstance = some i)
    (hCh : pStatus.dataChannel = some ch) :
    (pStatus.type = some U_SHORT_RANGE_EVENT_CONNECTED →
      l.length < cfg.maxConnections →
      (spsEventCallback cfg pStatus l).callbackRegistry.map
        (fun s => (getSpsChannel i ch s).isSome) = some true) ∧
    (pStatus.type = some U_SHORT_RANGE_EVENT_DISCONNECTED →
      (getSpsChannel i ch l).isSome = true →
      l.countP (fun cc => decide (cc.pInstance = i ∧ cc.channel = ch)) ≤ 1 →
      (spsEventCallback cfg pStatus l).callbackRegistry.map
        (fun s => (getSpsChannel i ch s).isSome) = some true ∧
      getSpsChannel i ch (spsEventCallback cfg pStatus l).finalRegistry = none) := by
  constructor
  · intro hType hLen
    simp [spsEventCallback, hCb, hInst, hCh, hType,
      U_SHORT_RANGE_EVENT_CONNECTED, U_SHORT_RANGE_EVENT_DISCONNECTED]
    exact getSpsChannel_createSpsChannel_isSome cfg i ch l hLen
  · intro hType hSome hUnique
    simp [spsEventCallback, hCb, hInst, hCh, hType,
      U_SHORT_RANGE_EVENT_CONNECTED, U_SHORT_RANGE_EVENT_DISCONNECTED]
    exact ⟨hSome, getSpsChannel_deleteSpsChannel_eq_none i ch l hUnique⟩
/-- Claim C4 counterexample: capacity-4 buffer holding [1, 2]; a push of
[3, 4, 5] leaves the buffer at [1, 2] — the two bytes that would fit are
NOT appended, refuting "as many bytes as fit are appended and only the
bytes beyond capacity are dropped". -/
theorem dataCallback_partial_append_refuted :
    (getSpsChannel 0 3 (dataCallback (InstanceState.mk 0 true false none false true)
        3 [3, 4, 5] [SpsChannel.mk 3 0 (RingBuffer.mk 4 [1, 2]) 100]).channelList).map
      (fun c => c.rxRingBuffer.data) = some [1, 2] ∧
    ¬ (getSpsChannel 0 3 (dataCallback (InstanceState.mk 0 true false none false true)
        3 [3, 4, 5] [SpsChannel.mk 3 0 (RingBuffer.mk 4 [1, 2]) 100]).channelList).map
      (fun c => c.rxRingBuffer.data) = some [1, 2, 3, 4] := by
  refine ⟨rfl, by decide⟩

/-- Claim C4 amended: a push into a channel's receive buffer is
all-or-nothing: a block that fits entirely in the remaining capacity is
appended in order after the previously buffered bytes; a block that does
not fit is dropped whole and the buffer — previously buffered bytes
included — is left exactly as it was. -/
theorem dataCallback_all_or_nothing_push
    (inst : InstanceState) (chId : Int) (data : List Nat)
    (l : List SpsChannel) (c : SpsChannel)
    (hRaw : inst.hasBtDataCallback = false)
    (hAvail : inst.hasBtDataAvailableCallback = true)
    (hGet : getSpsChannel inst.pInstance chId l = some c) :
    (c.rxRingBuffer.data.length + data.length ≤ c.rxRingBuffer.capacity →
      getSpsChannel inst.pInstance chId (dataCallback inst chId data l).channelList =
        some { c with rxRingBuffer :=
          RingBuffer.mk c.rxRingBuffer.capacity (c.rxRingBuffer.data ++ data) }) ∧
    (c.rxRingBuffer.capacity < c.rxRingBuffer.data.length + data.length →
      getSpsChannel inst.pInstance chId (dataCallback inst chId data l).channelList =
        some c) := by
  constructor
  · intro hFit
    simp [dataCallback, hRaw, hAvail, hGet, ringBufferAdd, hFit,
      getSpsChannel_updateFirstSpsChannel]
  · intro hNoFit
    have hFail : ¬ (c.rxRingBuffer.data.length + data.length ≤ c.rxRingBuffer.capacity) := by
      omega
    simp [dataCallback, hRaw, hAvail, hGet, ringBufferAdd, hFail,
      getSpsChannel_updateFirstSpsChannel]

/-- Claim C5: a `dataCallback` push for a registered channel enqueues a
data-available event exactly when the buffer was empty immediately before
the push, and two consecutive pushes starting from an empty buffer (the
first one non-empty and fitting) yield exactly one event. -/
theorem dataCallback_ready_edge
    (inst : InstanceState) (chId : Int) (data data1 data2 : List Nat)
    (l : List SpsChannel) (c : SpsChannel)
    (hRaw : inst.hasBtDataCallback = false)
    (hAvail : inst.hasBtDataAvailableCallback = true)
    (hGet : getSpsChannel inst.pInstance chId l = some c) :
    ((dataCallback inst chId data l).queuedEvents =
      if c.rxRingBuffer.data = [] then [bleDataEvent.mk chId inst.pInstance] else []) ∧
    (c.rxRingBuffer.data = [] → data1 ≠ [] →
      data1.length ≤ c.rxRingBuffer.capacity →
      (dataCallback inst chId data1 l).queuedEvents.length = 1 ∧
      (dataCallback inst chId data2
        (dataCallback inst chId data1 l).channelList).queuedEvents = []) := by
  constructor
  · simp [dataCallback, hRaw, hAvail, hGet, ringBufferDataSize, List.length_eq_zero]
  · intro hEmpty hNe hFit
    have hFit' : c.rxRingBuffer.data.length + data1.length ≤ c.rxRingBuffer.capacity := by
      rw [hEmpty]; simpa using hFit
    have hList : (dataCallback inst chId data1 l).channelList =
        updateFirstSpsChannel inst.pInstance chId
          (RingBuffer.mk c.rxRingBuffer.capacity (c.rxRingBuffer.data ++ data1)) l := by
      simp [dataCallback, hRaw, hAvail, hGet, ringBufferAdd, hFit']
    constructor
    · simp [dataCallback, hRaw, hAvail, hGet, ringBufferDataSize, hEmpty]
    · have hGet2 : getSpsChannel inst.pInstance chId (dataCallback inst chId data1 l).channelList =
          some { c with rxRingBuffer :=
            RingBuffer.mk c.rxRingBuffer.capacity (c.rxRingBuffer.data ++ data1) } := by
        rw [hList, getSpsChannel_updateFirstSpsChannel, hGet]
        rfl
      generalize hL2 : (dataCallback inst chId data1 l).channelList = l2 at hGet2
      simp [dataCallback, hRaw, hAvail, hGet2, ringBufferDataSize, hEmpty, hNe]

/-- Claim C9: a block that does not fit into an empty buffer is dropped
whole, yet because the buffer was empty before the push an event is still
queued, so the data-available callback can run while the buffer holds zero
bytes and a subsequent read returns empty. -/
theorem dataCallback_event_despite_failed_add
    (inst : InstanceState) (chId : Int) (data : List Nat)
    (l : List SpsChannel) (c : SpsChannel) (maxLen : Nat)
    (hRaw : inst.hasBtDataCallback = false)
    (hAvail : inst.hasBtDataAvailableCallback = true)
    (hGet : getSpsChannel inst.pInstance chId l = some c)
    (hEmpty : c.rxRingBuffer.data = [])
    (hTooBig : c.rxRingBuffer.capacity < data.length) :
    (dataCallback inst chId data l).queuedEvents = [bleDataEvent.mk chId inst.pInstance] ∧
    getSpsChannel inst.pInstance chId (dataCallback inst chId data l).channelList =
      some c ∧
    (ringBufferRead c.rxRingBuffer maxLen).1 = [] := by
  have hFail : ¬ (c.rxRingBuffer.data.length + data.length ≤ c.rxRingBuffer.capacity) := by
    rw [hEmpty]; simpa using hTooBig
  refine ⟨?_, ?_, ?_⟩
  · simp [dataCallback, hRaw, hAvail, hGet, ringBufferDataSize, hEmpty]
  · simp [dataCallback, hRaw, hAvail, hGet, ringBufferAdd, hFail,
      getSpsChannel_updateFirstSpsChannel]
  · simp [ringBufferRead, hEmpty]
/-- Claim C6 counterexample: with a configured maximum of 1, a registry
holding one channel of instance 0 and none of instance 1 (so the
instance-1 scope count, 0, is below the maximum), `createSpsChannel` for
instance 1 adds nothing — the bound the code enforces is on the whole
registry, not on the per-instance count. -/
theorem createSpsChannel_perInstance_bound_refuted :
    createSpsChannel (Config.mk 1 8 100) 1 7
      [SpsChannel.mk 5 0 (RingBuffer.mk 8 []) 100] =
      [SpsChannel.mk 5 0 (RingBuffer.mk 8 []) 100] ∧
    List.countP (fun c => decide (c.pInstance = 1))
      [SpsChannel.mk 5 0 (RingBuffer.mk 8 []) 100] = 0 ∧
    (0 : Nat) < (Config.mk 1 8 100).maxConnections := by
  refine ⟨rfl, rfl, by decide⟩

/-- Claim C6 amended: the bound `createSpsChannel` enforces is on the total
number of channels in the registry across all instances: when that total
already equals the configured maximum (at least 1) a further create leaves
the registry unchanged; when it is below the maximum exactly one channel is
appended, with a newly initialised receive buffer and the default send
timeout; the total therefore never exceeds the maximum. -/
theorem createSpsChannel_global_bound
    (cfg : Config) (i : Nat) (ch : Int) (l : List SpsChannel)
    (hMax : 1 ≤ cfg.maxConnections) :
    (l.length = cfg.maxConnections → createSpsChannel cfg i ch l = l) ∧
    (l.length < cfg.maxConnections →
      createSpsChannel cfg i ch l = l ++ [newSpsChannel cfg i ch]) ∧
    (newSpsChannel cfg i ch).rxRingBuffer = ringBufferCreate cfg.bufferSize ∧
    (newSpsChannel cfg i ch).txTimeout = cfg.defaultSendTimeoutMs ∧
    (l.length ≤ cfg.maxConnections →
      (createSpsChannel cfg i ch l).length ≤ cfg.maxConnections) := by
  refine ⟨?_, ?_, rfl, rfl, ?_⟩
  · intro hEq
    cases l with
    | nil => simp at hEq; omega
    | cons c rest =>
      have hNotLt : ¬ rest.length + 1 < cfg.maxConnections := by
        simp at hEq; omega
      simp [createSpsChannel, hNotLt]
  · intro hLt
    cases l with
    | nil => simp [createSpsChannel]
    | cons c rest =>
      have hLt' : rest.length + 1 < cfg.maxConnections := by simpa using hLt
      simp [createSpsChannel, hLt']
  · intro hLe
    cases l with
    | nil => simpa [createSpsChannel] using hMax
    | cons c rest =>
      by_cases hLt : rest.length + 1 < cfg.maxConnections
      · simp [createSpsChannel, hLt]
        omega
      · simp [createSpsChannel, hLt]
        simpa using hLe

/-- Claim C8: on a valid instance with the short-range lock held,
`uBleDataSetCallbackConnectionStatus` enables and returns success for a
non-null callback when none is registered (given all four registrations
succeed), disables and returns success for a null callback when one is
registered, and for the two remaining combinations returns
InvalidParameter leaving the registered-callback state unchanged. -/
theorem uBleDataSetCallbackConnectionStatus_enable_disable
    (r1 r2 r3 r4 q1 q2 q3 q4 : Int)
    (h1 : r1 = U_ERROR_COMMON_SUCCESS) (h2 : r2 = U_ERROR_COMMON_SUCCESS)
    (h3 : r3 = U_ERROR_COMMON_SUCCESS) (h4 : r4 = U_ERROR_COMMON_SUCCESS) :
    uBleDataSetCallbackConnectionStatus true true true false r1 r2 r3 r4 =
      ConnStatusRun.mk U_ERROR_COMMON_SUCCESS true ∧
    uBleDataSetCallbackConnectionStatus true true false true q1 q2 q3 q4 =
      ConnStatusRun.mk U_ERROR_COMMON_SUCCESS false ∧
    uBleDataSetCallbackConnectionStatus true true true true q1 q2 q3 q4 =
      ConnStatusRun.mk U_ERROR_COMMON_INVALID_PARAMETER true ∧
    uBleDataSetCallbackConnectionStatus true true false false q1 q2 q3 q4 =
      ConnStatusRun.mk U_ERROR_COMMON_INVALID_PARAMETER false := by
  subst h1 h2 h3 h4
  refine ⟨?_, ?_, ?_, ?_⟩ <;> simp [uBleDataSetCallbackConnectionStatus]

/-- Claim C10: when enabling the data-available callback on a valid
instance and the lazy event-queue creation fails (`uPortEventQueueOpen`
negative), the returned status is solely the EDM registration outcome: the
call returns success, the callback is registered, and the queue handle is
left at the NOT_INITIALISED sentinel. -/
theorem uBleDataSetDataAvailableCallback_queue_open_failure_ignored
    (qOpen edm : Int) (hq : qOpen < 0) (he : edm = U_ERROR_COMMON_SUCCESS) :
    uBleDataSetDataAvailableCallback true true true false
      U_ERROR_COMMON_NOT_INITIALISED qOpen edm =
      DataAvailRun.mk U_ERROR_COMMON_SUCCESS true U_ERROR_COMMON_NOT_INITIALISED := by
  subst he
  simp [uBleDataSetDataAvailableCallback, hq]
/-- Witness for claim C1 at a concrete instance: handle 7 from the command
side, {Connected, channel 3, mtu 240, "AA:BB"} from the transport side. -/
theorem atConnectionEvent_btEdm_exactly_once_merged_witness :
    (InstanceState.mk 5 true true none false false).pPendingSpsConnectionEvent = none ∧
    ((atConnectionEvent 7 (InstanceState.mk 5 true true none false false)).2 = [] ∧
     (btEdmConnectionCallback 0 3 240 "AA:BB"
        (atConnectionEvent 7 (InstanceState.mk 5 true true none false false)).1).2 =
       [SpsConnection.mk (some 5) (some 7) (some 0) (some "AA:BB") (some 3)
         (some 240) (some true)] ∧
     (btEdmConnectionCallback 0 3 240 "AA:BB"
        (InstanceState.mk 5 true true none false false)).2 = [] ∧
     (atConnectionEvent 7 (btEdmConnectionCallback 0 3 240 "AA:BB"
        (InstanceState.mk 5 true true none false false)).1).2 =
       [SpsConnection.mk (some 5) (some 7) (some 0) (some "AA:BB") (some 3)
         (some 240) (some true)]) :=
  ⟨rfl, atConnectionEvent_btEdm_exactly_once_merged
    (InstanceState.mk 5 true true none false false) 7 0 3 240 "AA:BB" rfl rfl rfl⟩

/-- Witness for the amended claim C3, exercising both halves at concrete
inputs: a Connected event for (instance 7, channel 3) consumed over an
empty registry with maximum 4 (lookup succeeds in the callback-time
state), and a Disconnected event for the same key consumed over a registry
holding that channel exactly once (lookup succeeds at callback time and
fails afterwards). -/
theorem spsEventCallback_create_before_delete_after_witness :
    (spsEventCallback (Config.mk 4 8 100)
        (SpsConnection.mk (some 7) (some 9) (some U_SHORT_RANGE_EVENT_CONNECTED)
          (some "AA:BB") (some 3) (some 240) (some true))
        []).callbackRegistry.map
      (fun s => (getSpsChannel 7 3 s).isSome) = some true ∧
    (spsEventCallback (Config.mk 4 8 100)
        (SpsConnection.mk (some 7) (some 9) (some U_SHORT_RANGE_EVENT_DISCONNECTED)
          (some "AA:BB") (some 3) (some 240) (some true))
        [SpsChannel.mk 3 7 (RingBuffer.mk 8 []) 100]).callbackRegistry.map
      (fun s => (getSpsChannel 7 3 s).isSome) = some true ∧
    getSpsChannel 7 3 (spsEventCallback (Config.mk 4 8 100)
        (SpsConnection.mk (some 7) (some 9) (some U_SHORT_RANGE_EVENT_DISCONNECTED)
          (some "AA:BB") (some 3) (some 240) (some true))
        [SpsChannel.mk 3 7 (RingBuffer.mk 8 []) 100]).finalRegistry = none :=
  ⟨(spsEventCallback_create_before_delete_after (Config.mk 4 8 100)
      (SpsConnection.mk (some 7) (some 9) (some U_SHORT_RANGE_EVENT_CONNECTED)
        (some "AA:BB") (some 3) (some 240) (some true))
      [] 7 3 rfl rfl rfl).1 rfl (by decide),
   (spsEventCallback_create_before_delete_after (Config.mk 4 8 100)
      (SpsConnection.mk (some 7) (some 9) (some U_SHORT_RANGE_EVENT_DISCONNECTED)
        (some "AA:BB") (some 3) (some 240) (some true))
      [SpsChannel.mk 3 7 (RingBuffer.mk 8 []) 100] 7 3 rfl rfl rfl).2 rfl rfl
     (by decide)⟩

/-- Witness for the amended claim C4 at a concrete push: capacity-4 buffer
holding [1, 2], block [9]. -/
theorem dataCallback_all_or_nothing_push_witness :
    getSpsChannel 0 3 [SpsChannel.mk 3 0 (RingBuffer.mk 4 [1, 2]) 100] =
      some (SpsChannel.mk 3 0 (RingBuffer.mk 4 [1, 2]) 100) ∧
    ((([1, 2] : List Nat).length + ([9] : List Nat).length ≤ 4 →
      getSpsChannel 0 3 (dataCallback (InstanceState.mk 0 true false none false true)
          3 [9] [SpsChannel.mk 3 0 (RingBuffer.mk 4 [1, 2]) 100]).channelList =
        some (SpsChannel.mk 3 0 (RingBuffer.mk 4 ([1, 2] ++ [9])) 100)) ∧
     (4 < ([1, 2] : List Nat).length + ([9] : List Nat).length →
      getSpsChannel 0 3 (dataCallback (InstanceState.mk 0 true false none false true)
          3 [9] [SpsChannel.mk 3 0 (RingBuffer.mk 4 [1, 2]) 100]).channelList =
        some (SpsChannel.mk 3 0 (RingBuffer.mk 4 [1, 2]) 100))) :=
  ⟨rfl, dataCallback_all_or_nothing_push (InstanceState.mk 0 true false none false true)
    3 [9] [SpsChannel.mk 3 0 (RingBuffer.mk 4 [1, 2]) 100]
    (SpsChannel.mk 3 0 (RingBuffer.mk 4 [1, 2]) 100) rfl rfl rfl⟩

/-- Witness for claim C5 at a concrete channel: empty capacity-4 buffer,
pushes [8], then [9] followed by [7]. -/
theorem dataCallback_ready_edge_witness :
    getSpsChannel 0 3 [SpsChannel.mk 3 0 (RingBuffer.mk 4 []) 100] =
      some (SpsChannel.mk 3 0 (RingBuffer.mk 4 []) 100) ∧
    (((dataCallback (InstanceState.mk 0 true false none false true)
        3 [8] [SpsChannel.mk 3 0 (RingBuffer.mk 4 []) 100]).queuedEvents =
      if ([] : List Nat) = [] then [bleDataEvent.mk 3 0] else []) ∧
     (([] : List Nat) = [] → ([9] : List Nat) ≠ [] →
      ([9] : List Nat).length ≤ 4 →
      (dataCallback (InstanceState.mk 0 true false none false true)
        3 [9] [SpsChannel.mk 3 0 (RingBuffer.mk 4 []) 100]).queuedEvents.length = 1 ∧
      (dataCallback (InstanceState.mk 0 true false none false true) 3 [7]
        (dataCallback (InstanceState.mk 0 true false none false true)
          3 [9] [SpsChannel.mk 3 0 (RingBuffer.mk 4 []) 100]).channelList).queuedEvents
        = [])) :=
  ⟨rfl, dataCallback_ready_edge (InstanceState.mk 0 true false none false true)
    3 [8] [9] [7] [SpsChannel.mk 3 0 (RingBuffer.mk 4 []) 100]
    (SpsChannel.mk 3 0 (RingBuffer.mk 4 []) 100) rfl rfl rfl⟩

/-- Witness for claim C9 at a concrete overflow: empty capacity-4 buffer,
5-byte block. -/
theorem dataCallback_event_despite_failed_add_witness :
    (RingBuffer.mk 4 ([] : List Nat)).capacity < ([1, 2, 3, 4, 5] : List Nat).length ∧
    ((dataCallback (InstanceState.mk 0 true false none false true)
        3 [1, 2, 3, 4, 5] [SpsChannel.mk 3 0 (RingBuffer.mk 4 []) 100]).queuedEvents =
      [bleDataEvent.mk 3 0] ∧
     getSpsChannel 0 3 (dataCallback (InstanceState.mk 0 true false none false true)
        3 [1, 2, 3, 4, 5] [SpsChannel.mk 3 0 (RingBuffer.mk 4 []) 100]).channelList =
      some (SpsChannel.mk 3 0 (RingBuffer.mk 4 []) 100) ∧
     (ringBufferRead (RingBuffer.mk 4 []) 10).1 = []) :=
  ⟨by decide, dataCallback_event_despite_failed_add
    (InstanceState.mk 0 true false none false true) 3 [1, 2, 3, 4, 5]
    [SpsChannel.mk 3 0 (RingBuffer.mk 4 []) 100]
    (SpsChannel.mk 3 0 (RingBuffer.mk 4 []) 100) 10 rfl rfl rfl rfl (by decide)⟩

/-- Witness for the amended claim C6 at a concrete configuration: maximum
2, empty registry then full registry. -/
theorem createSpsChannel_global_bound_witness :
    1 ≤ (Config.mk 2 8 100).maxConnections ∧
    ((([] : List SpsChannel).length = (Config.mk 2 8 100).maxConnections →
        createSpsChannel (Config.mk 2 8 100) 0 1 [] = []) ∧
     (([] : List SpsChannel).length < (Config.mk 2 8 100).maxConnections →
        createSpsChannel (Config.mk 2 8 100) 0 1 [] =
          [] ++ [newSpsChannel (Config.mk 2 8 100) 0 1]) ∧
     (newSpsChannel (Config.mk 2 8 100) 0 1).rxRingBuffer =
        ringBufferCreate (Config.mk 2 8 100).bufferSize ∧
     (newSpsChannel (Config.mk 2 8 100) 0 1).txTimeout =
        (Config.mk 2 8 100).defaultSendTimeoutMs ∧
     (([] : List SpsChannel).length ≤ (Config.mk 2 8 100).maxConnections →
        (createSpsChannel (Config.mk 2 8 100) 0 1 []).length ≤
          (Config.mk 2 8 100).maxConnections)) :=
  ⟨by decide, createSpsChannel_global_bound (Config.mk 2 8 100) 0 1 [] (by decide)⟩

/-- Witness for claim C8 at concrete registration outcomes: all four
registrations succeed on enable; arbitrary outcomes -7 elsewhere. -/
theorem uBleDataSetCallbackConnectionStatus_enable_disable_witness :
    (0 : Int) = U_ERROR_COMMON_SUCCESS ∧
    (uBleDataSetCallbackConnectionStatus true true true false 0 0 0 0 =
      ConnStatusRun.mk U_ERROR_COMMON_SUCCESS true ∧
     uBleDataSetCallbackConnectionStatus true true false true (-7) (-7) (-7) (-7) =
      ConnStatusRun.mk U_ERROR_COMMON_SUCCESS false ∧
     uBleDataSetCallbackConnectionStatus true true true true (-7) (-7) (-7) (-7) =
      ConnStatusRun.mk U_ERROR_COMMON_INVALID_PARAMETER true ∧
     uBleDataSetCallbackConnectionStatus true true false false (-7) (-7) (-7) (-7) =
      ConnStatusRun.mk U_ERROR_COMMON_INVALID_PARAMETER false) :=
  ⟨rfl, uBleDataSetCallbackConnectionStatus_enable_disable
    0 0 0 0 (-7) (-7) (-7) (-7) rfl rfl rfl rfl⟩

/-- Witness for claim C10 at concrete outcomes: queue open fails with -1,
EDM registration succeeds. -/
theorem uBleDataSetDataAvailableCallback_queue_open_failure_ignored_witness :
    (-1 : Int) < 0 ∧
    uBleDataSetDataAvailableCallback true true true false
      U_ERROR_COMMON_NOT_INITIALISED (-1) 0 =
      DataAvailRun.mk U_ERROR_COMMON_SUCCESS true U_ERROR_COMMON_NOT_INITIALISED :=
  ⟨by decide, uBleDataSetDataAvailableCallback_queue_open_failure_ignored
    (-1) 0 (by decide) rfl⟩
